import Mathlib

/-!
Shallow embedding of the bEEmapiX-C3 auto-learning firmware
(`src/bEEmoniX_c3_v1_autolearn/bEEmoniX_c3_v1_autolearn.ino` and the
unnamed variant `src/unnamed/part_000`; the two agree on everything
modelled here except where noted).

Temperatures are modelled as rationals, machine `unsigned long`
arithmetic as naturals reduced modulo `2 ^ 32`.  Arrays indexed by
`int` loop counters are modelled as total functions out of `ℕ`, so
that the bounds-safety claims can be stated rather than assumed.
-/

namespace BEEmapiX

/-! ## Definitions -/

/-- An 8-byte DS18B20 `DeviceAddress`: byte value at each of 8 indices. -/
def DeviceAddress : Type := Fin 8 → ℕ

/-- The all-zero address used by `setupSensors` to mark an unlearned slot. -/
def emptyAddr : DeviceAddress := fun _ => 0

/-- Predicate `isAddressEmpty`: all 8 bytes are zero. -/
def isAddressEmpty (a : DeviceAddress) : Bool :=
  decide (∀ i, a i = 0)

/-- Predicate `addressesMatch`: byte-wise equality of two 8-byte addresses. -/
def addressesMatch (a b : DeviceAddress) : Bool :=
  decide (∀ i, a i = b i)

/-- Constant `DEVICE_DISCONNECTED_C` from the DallasTemperature library. -/
def DEVICE_DISCONNECTED_C : ℚ := -127

/-- The learning-mode related portion of the firmware's global state:
`sensorMap`, `learningMode`, `mappingComplete`, `learnedSensors`,
`baselineTemps`. -/
structure LearnState where
  sensorMap : ℕ → ℕ → DeviceAddress
  learningMode : Bool
  mappingComplete : Bool
  learnedSensors : ℕ
  baselineTemps : ℕ → ℚ

/-- The scan in `checkForHeatSignal`: index of the first discovered sensor
(in enumeration order `0 ..= discoveredCount - 1`) whose current reading
exceeds its baseline by more than `1.5` degrees. -/
def firstHot (dc : ℕ) (read baseline : ℕ → ℚ) : Option ℕ :=
  (List.range dc).find? (fun i => decide ((3 : ℚ) / 2 < read i - baseline i))

/-- The duplicate check in `checkForHeatSignal`: does the candidate address
already occupy some position of the (partial) sensor map? -/
def alreadyLearned (R C : ℕ) (m : ℕ → ℕ → DeviceAddress) (a : DeviceAddress) : Bool :=
  (List.range R).any (fun r => (List.range C).any (fun c => addressesMatch (m r c) a))

/-- One firing of `checkForHeatSignal` (the once-per-second poll body):
find the first identity above threshold; if none, do nothing; if it is a
duplicate, reject the tick; otherwise assign it to position
`(learnedSensors / C, learnedSensors % C)`, bump `learnedSensors`, update
its baseline, and finish learning when the grid is full. -/
def checkForHeatSignal (R C dc : ℕ) (addrs : ℕ → DeviceAddress)
    (read : ℕ → ℚ) (s : LearnState) : LearnState :=
  match firstHot dc read s.baselineTemps with
  | none => s
  | some i =>
    if alreadyLearned R C s.sensorMap (addrs i) then s
    else
      let row := s.learnedSensors / C
      let col := s.learnedSensors % C
      let m2 : ℕ → ℕ → DeviceAddress :=
        fun r c => if r = row ∧ c = col then addrs i else s.sensorMap r c
      let b2 : ℕ → ℚ := fun j => if j = i then read i else s.baselineTemps j
      if s.learnedSensors + 1 < R * C then
        { sensorMap := m2, learningMode := true, mappingComplete := s.mappingComplete,
          learnedSensors := s.learnedSensors + 1, baselineTemps := b2 }
      else
        { sensorMap := m2, learningMode := false, mappingComplete := true,
          learnedSensors := s.learnedSensors + 1, baselineTemps := b2 }

/-- The learning-relevant part of one `loop()` pass: `checkForHeatSignal`
runs only while `learningMode` is set. -/
def loopTick (R C dc : ℕ) (addrs : ℕ → DeviceAddress) (read : ℕ → ℚ)
    (s : LearnState) : LearnState :=
  if s.learningMode then checkForHeatSignal R C dc addrs read s else s

/-- The state established by `setupSensors` + `startLearningMode`:
all map slots zeroed, learning on, nothing learned, baselines captured. -/
def startLearningState (b0 : ℕ → ℚ) : LearnState :=
  { sensorMap := fun _ _ => emptyAddr, learningMode := true,
    mappingComplete := false, learnedSensors := 0, baselineTemps := b0 }

/-- A whole learning session: fold `loopTick` over a list of per-tick
reading functions, starting from the fresh learning state. -/
def runLearning (R C dc : ℕ) (addrs : ℕ → DeviceAddress) (b0 : ℕ → ℚ)
    (reads : List (ℕ → ℚ)) : LearnState :=
  reads.foldl (fun s read => loopTick R C dc addrs read s) (startLearningState b0)

/-- Discovered addresses for the C1 scenario: sensor 0 has address
`(1,1,…,1)`, every other sensor `(2,2,…,2)`. -/
def c1Addrs : ℕ → DeviceAddress := fun i => if i = 0 then (fun _ => 1) else (fun _ => 2)

/-- C1 scenario state: sensor 0's address already learned at position
`(0,0)`, one position learned so far, all baselines at 20 degrees. -/
def c1State : LearnState :=
  { sensorMap := fun r c => if r = 0 ∧ c = 0 then (fun _ => 1) else emptyAddr,
    learningMode := true, mappingComplete := false,
    learnedSensors := 1, baselineTemps := fun _ => 20 }

/-- C1 scenario tick readings: every sensor reads 22 degrees
(2 degrees above its baseline, clearing the 1.5-degree threshold). -/
def c1Read : ℕ → ℚ := fun _ => 22

/-- Invariant of the learning session: `learnedSensors` stays within the
grid, learning mode implies room to learn, a complete mapping means the
session finished, positions with row-major index below `learnedSensors`
hold non-empty pairwise-distinct addresses and the remaining grid
positions are still empty. -/
def MapInv (R C : ℕ) (s : LearnState) : Prop :=
  s.learnedSensors ≤ R * C ∧
  (s.learningMode = true → s.learnedSensors < R * C) ∧
  (s.mappingComplete = true → s.learningMode = false ∧ s.learnedSensors = R * C) ∧
  (∀ k, k < s.learnedSensors →
    isAddressEmpty (s.sensorMap (k / C) (k % C)) = false) ∧
  (∀ k, s.learnedSensors ≤ k → k < R * C →
    isAddressEmpty (s.sensorMap (k / C) (k % C)) = true) ∧
  (∀ k l, k < l → l < s.learnedSensors →
    addressesMatch (s.sensorMap (k / C) (k % C)) (s.sensorMap (l / C) (l % C)) = false)

/-- Discovered addresses for the C2 witness session. -/
def wAddrs : ℕ → DeviceAddress := fun i => fun _ => i + 1

/-- Baselines for the C2 witness session: every sensor starts at 20. -/
def wB0 : ℕ → ℚ := fun _ => 20

/-- First witness tick: sensor 0 warmed to 22, sensor 1 still at 20. -/
def wr1 : ℕ → ℚ := fun i => if i = 0 then 22 else 20

/-- Second witness tick: sensor 0 back at 20, sensor 1 warmed to 22. -/
def wr2 : ℕ → ℚ := fun i => if i = 0 then 20 else 22

/-- State after the first witness tick. -/
def wSt1 : LearnState :=
  { sensorMap := fun r c => if r = 0 ∧ c = 0 then wAddrs 0 else emptyAddr,
    learningMode := true, mappingComplete := false,
    learnedSensors := 1, baselineTemps := fun j => if j = 0 then 22 else 20 }

/-- The bounds part of the loop invariant, as stated by claim C10. -/
def LearnInv (R C : ℕ) (s : LearnState) : Prop :=
  s.learnedSensors ≤ R * C ∧ (s.learningMode = true → s.learnedSensors < R * C)

/-- The validity test used throughout `sendData`/`runCalibration`:
a reading is valid iff it is strictly above `DEVICE_DISCONNECTED_C`. -/
def validTemp (t : ℚ) : Bool :=
  decide (DEVICE_DISCONNECTED_C < t)

/-- Row-major enumeration of the grid positions, matching the nested
`for (row …) for (col …)` loops. -/
def gridPositions (R C : ℕ) : List (ℕ × ℕ) :=
  (List.range R).flatMap (fun r => (List.range C).map (fun c => (r, c)))

/-- The `rawTemps` matrix built at the top of `runCalibration`: `-127` for
an unlearned position or a disconnected reading, the raw temperature
otherwise. -/
def rawTempsOf (m : ℕ → ℕ → DeviceAddress) (getTempC : DeviceAddress → ℚ)
    (r c : ℕ) : ℚ :=
  if isAddressEmpty (m r c) then -127
  else if getTempC (m r c) ≤ DEVICE_DISCONNECTED_C then -127
  else getTempC (m r c)

/-- Value `count` in `runCalibration`: how many positions produced a valid
calibration-time reading. -/
def calibCount (R C : ℕ) (raw : ℕ → ℕ → ℚ) : ℕ :=
  ((gridPositions R C).filter (fun p => validTemp (raw p.1 p.2))).length

/-- Value `sum` in `runCalibration`: total of the valid calibration-time readings. -/
def calibSum (R C : ℕ) (raw : ℕ → ℕ → ℚ) : ℚ :=
  (((gridPositions R C).filter (fun p => validTemp (raw p.1 p.2))).map
    (fun p => raw p.1 p.2)).sum

/-- Value `avg` in `runCalibration`. -/
def calibAvg (R C : ℕ) (raw : ℕ → ℕ → ℚ) : ℚ :=
  calibSum R C raw / (calibCount R C raw : ℚ)

/-- The calibration-related state: the in-memory `calibrationOffset`
matrix, the persisted `sensor-cal` NVS namespace (one optional float per
position key plus the `done` flag), and the `calibrationLoaded` flag. -/
structure CalState where
  offset : ℕ → ℕ → ℚ
  store : ℕ → ℕ → Option ℚ
  storeDone : Bool
  calibrationLoaded : Bool

/-- Outcome of `runCalibration` (the three early-return paths). -/
inductive CalResult
  | ok
  | mappingIncomplete
  | insufficientSensors
deriving DecidableEq

/-- Function `runCalibration`: refuse if the mapping is incomplete; read one raw
temperature per mapped position; refuse if fewer than 2 are valid;
otherwise set `offset = avg - raw` for valid positions (persisting those
keys) and `offset = 0` for invalid positions (persisting nothing for
them), then persist the `done` flag. -/
def runCalibration (R C : ℕ) (mappingComplete : Bool)
    (m : ℕ → ℕ → DeviceAddress) (getTempC : DeviceAddress → ℚ)
    (cs : CalState) : CalResult × CalState :=
  if mappingComplete = false then (CalResult.mappingIncomplete, cs)
  else if calibCount R C (rawTempsOf m getTempC) < 2 then
    (CalResult.insufficientSensors, cs)
  else
    (CalResult.ok,
      { offset := fun r c =>
          if r < R ∧ c < C then
            (if validTemp (rawTempsOf m getTempC r c) then
              calibAvg R C (rawTempsOf m getTempC) - rawTempsOf m getTempC r c
            else 0)
          else cs.offset r c,
        store := fun r c =>
          if r < R ∧ c < C ∧ validTemp (rawTempsOf m getTempC r c) = true then
            some (calibAvg R C (rawTempsOf m getTempC) - rawTempsOf m getTempC r c)
          else cs.store r c,
        storeDone := true,
        calibrationLoaded := true })

/-- Function `loadCalibration`: zero every offset, then, if the stored `done` flag
is set, read each in-grid key back with default `0`. Returns the loaded
offset matrix and the resulting `calibrationLoaded` flag. -/
def loadCalibration (R C : ℕ) (store : ℕ → ℕ → Option ℚ) (storeDone : Bool) :
    (ℕ → ℕ → ℚ) × Bool :=
  (fun r c =>
    if storeDone = true ∧ r < R ∧ c < C then (store r c).getD 0 else 0,
   storeDone)

/-- Function `measureTemperatures` (autolearn `.ino` variant): per position, `-127`
if unlearned, `-127` if the sensor reads at or below the disconnected
sentinel, otherwise the raw reading plus the calibration offset. -/
def measureTemperatures (m : ℕ → ℕ → DeviceAddress) (getTempC : DeviceAddress → ℚ)
    (offset : ℕ → ℕ → ℚ) : ℕ → ℕ → ℚ :=
  fun r c =>
    if isAddressEmpty (m r c) then -127
    else if getTempC (m r c) ≤ DEVICE_DISCONNECTED_C then -127
    else getTempC (m r c) + offset r c

/-- The statistics block of a telemetry report. -/
structure Stats where
  min_temp : ℚ
  max_temp : ℚ
  avg_temp : ℚ
  valid_readings : ℕ
deriving DecidableEq

/-- One iteration of the statistics loop in `sendData`, on the running
accumulator `(minTemp, maxTemp, sumTemp, validReadings)`. -/
def statsStep (acc : ℚ × ℚ × ℚ × ℕ) (t : ℚ) : ℚ × ℚ × ℚ × ℕ :=
  if validTemp t then
    (if t < acc.1 then t else acc.1,
     if acc.2.1 < t then t else acc.2.1,
     acc.2.2.1 + t,
     acc.2.2.2 + 1)
  else acc

/-- The grid flattened in the row-major order of the statistics loop. -/
def gridTemps (R C : ℕ) (grid : ℕ → ℕ → ℚ) : List ℚ :=
  (gridPositions R C).map (fun p => grid p.1 p.2)

/-- The statistics block of `sendData`: fold the loop over the grid
starting from `(999, -999, 0, 0)`; emit the block iff `validReadings > 0`. -/
def computeStatistics (R C : ℕ) (grid : ℕ → ℕ → ℚ) : Option Stats :=
  if 0 < ((gridTemps R C grid).foldl statsStep (999, -999, 0, 0)).2.2.2 then
    some ⟨((gridTemps R C grid).foldl statsStep (999, -999, 0, 0)).1,
          ((gridTemps R C grid).foldl statsStep (999, -999, 0, 0)).2.1,
          ((gridTemps R C grid).foldl statsStep (999, -999, 0, 0)).2.2.1
            / (((gridTemps R C grid).foldl statsStep (999, -999, 0, 0)).2.2.2 : ℚ),
          ((gridTemps R C grid).foldl statsStep (999, -999, 0, 0)).2.2.2⟩
  else none

/-- The remote-directive handling at the end of `sendData`: on a parsed
response, if `edit == 1` and an `interval` key is present, the new period
is `interval * 1000` in 32-bit `unsigned long` arithmetic, clamped up to
10000 ms, and is written to both `SEND_PERIOD` and `MEASUREMENT_PERIOD`;
any other response shape leaves both periods unchanged. -/
def applyRemoteDirective (edit : Option ℤ) (interval : Option ℕ)
    (sendPeriod measurementPeriod : ℕ) : ℕ × ℕ :=
  match edit, interval with
  | some 1, some s =>
    let n := s * 1000 % 2 ^ 32
    let n2 := if n < 10000 then 10000 else n
    (n2, n2)
  | _, _ => (sendPeriod, measurementPeriod)

/-- All-unlearned 1-by-1 map for the C7 witness. -/
def m7 : ℕ → ℕ → DeviceAddress := fun _ _ => emptyAddr

/-- Bus readings for the C7 witness. -/
def g7 : DeviceAddress → ℚ := fun _ => 20

/-- A pristine calibration state. -/
def csInit : CalState :=
  { offset := fun _ _ => 0, store := fun _ _ => none,
    storeDone := false, calibrationLoaded := false }

/-- The 1-by-2 fully-mapped grid used by the C4 witness. -/
def m4 : ℕ → ℕ → DeviceAddress :=
  fun r c =>
    if r = 0 ∧ c = 0 then (fun _ => 1)
    else if r = 0 ∧ c = 1 then (fun _ => 2)
    else emptyAddr

/-- Bus readings for the C4 witness: sensor 1 reads 20, the rest 30. -/
def g4 : DeviceAddress → ℚ := fun a => if a 0 = 1 then 20 else 30

/-- 1-by-1 map with position (0,0) learned, for the C5 scenarios. -/
def m5 : ℕ → ℕ → DeviceAddress :=
  fun r c => if r = 0 ∧ c = 0 then (fun _ => 1) else emptyAddr

/-- C5 counterexample readings: the sensor reads -100 (a valid reading,
above the -127 sentinel). -/
def g5 : DeviceAddress → ℚ := fun _ => -100

/-- C5 counterexample offsets: calibration offset -27. -/
def off5 : ℕ → ℕ → ℚ := fun _ _ => -27

/-- Readings for the C5 witness: 20 degrees. -/
def g5w : DeviceAddress → ℚ := fun _ => 20

/-- Offsets for the C5 witness: +1 degree. -/
def off5w : ℕ → ℕ → ℚ := fun _ _ => 1

/-- The 1-by-3 fully-mapped grid for the C9 scenario. -/
def m9 : ℕ → ℕ → DeviceAddress :=
  fun r c =>
    if r = 0 ∧ c = 0 then (fun _ => 1)
    else if r = 0 ∧ c = 1 then (fun _ => 2)
    else if r = 0 ∧ c = 2 then (fun _ => 3)
    else emptyAddr

/-- C9 readings: sensor 1 disconnected (-127), sensor 2 reads 20,
sensor 3 reads 30. -/
def g9 : DeviceAddress → ℚ :=
  fun a => if a 0 = 1 then -127 else if a 0 = 2 then 20 else 30

/-- Prior calibration store for C9: position (0,0) has stored offset 5. -/
def cs9 : CalState :=
  { offset := fun _ _ => 0,
    store := fun r c => if r = 0 ∧ c = 0 then some 5 else none,
    storeDone := true, calibrationLoaded := true }

/-- The 1-by-1 grid for the C6 counterexample: its single sample is 1000,
a valid reading. -/
def grid6 : ℕ → ℕ → ℚ := fun _ _ => 1000

/-- The 1-by-1 grid for the C6 witness: its single sample is 20. -/
def grid6w : ℕ → ℕ → ℚ := fun _ _ => 20

/-! ## Theorems -/

theorem divmod_cancel {C k l : ℕ} (h1 : k / C = l / C) (h2 : k % C = l % C) :
    k = l := by
  conv_lhs => rw [← Nat.div_add_mod k C]
  rw [h1, h2, Nat.div_add_mod]

theorem alreadyLearned_eq_false {R C : ℕ} {m : ℕ → ℕ → DeviceAddress}
    {a : DeviceAddress} (h : alreadyLearned R C m a = false) :
    ∀ r, r < R → ∀ c, c < C → addressesMatch (m r c) a = false := by
  intro r hr c hc
  by_contra hne
  have hmem : addressesMatch (m r c) a = true := by
    cases hx : addressesMatch (m r c) a
    · exact absurd hx hne
    · rfl
  have htrue : alreadyLearned R C m a = true := by
    unfold alreadyLearned
    rw [List.any_eq_true]
    exact ⟨r, List.mem_range.mpr hr, by
      rw [List.any_eq_true]
      exact ⟨c, List.mem_range.mpr hc, hmem⟩⟩
  rw [h] at htrue
  exact Bool.false_ne_true htrue

theorem addressesMatch_of_empty {z a : DeviceAddress}
    (hz : isAddressEmpty z = true) :
    addressesMatch z a = isAddressEmpty a := by
  have hz2 : ∀ i, z i = 0 := of_decide_eq_true hz
  unfold addressesMatch isAddressEmpty
  rw [decide_eq_decide]
  constructor
  · intro h i
    rw [← h i, hz2 i]
  · intro h i
    rw [hz2 i, h i]

/-- If no sensor is above threshold, the tick changes nothing. -/
theorem step_no_signal (R C dc : ℕ) (addrs : ℕ → DeviceAddress) (read : ℕ → ℚ)
    (s : LearnState) (h : firstHot dc read s.baselineTemps = none) :
    checkForHeatSignal R C dc addrs read s = s := by
  unfold checkForHeatSignal
  rw [h]

/-- If the first above-threshold sensor is already in the map, the tick
is rejected with no state change. -/
theorem step_rejected (R C dc : ℕ) (addrs : ℕ → DeviceAddress) (read : ℕ → ℚ)
    (s : LearnState) (i : ℕ) (hi : firstHot dc read s.baselineTemps = some i)
    (hdup : alreadyLearned R C s.sensorMap (addrs i) = true) :
    checkForHeatSignal R C dc addrs read s = s := by
  unfold checkForHeatSignal
  rw [hi]
  simp [hdup]

/-- Assignment step, non-final position: full description of the new state. -/
theorem step_assign_continue (R C dc : ℕ) (addrs : ℕ → DeviceAddress)
    (read : ℕ → ℚ) (s : LearnState) (i : ℕ)
    (hi : firstHot dc read s.baselineTemps = some i)
    (hdup : alreadyLearned R C s.sensorMap (addrs i) = false)
    (hlt : s.learnedSensors + 1 < R * C) :
    checkForHeatSignal R C dc addrs read s =
      { sensorMap := fun r c =>
          if r = s.learnedSensors / C ∧ c = s.learnedSensors % C
          then addrs i else s.sensorMap r c,
        learningMode := true,
        mappingComplete := s.mappingComplete,
        learnedSensors := s.learnedSensors + 1,
        baselineTemps := fun j => if j = i then read i else s.baselineTemps j } := by
  unfold checkForHeatSignal
  rw [hi]
  simp [hdup, hlt]

/-- Assignment step, final position: learning ends, `mappingComplete` set. -/
theorem step_assign_finish (R C dc : ℕ) (addrs : ℕ → DeviceAddress)
    (read : ℕ → ℚ) (s : LearnState) (i : ℕ)
    (hi : firstHot dc read s.baselineTemps = some i)
    (hdup : alreadyLearned R C s.sensorMap (addrs i) = false)
    (hge : ¬ s.learnedSensors + 1 < R * C) :
    checkForHeatSignal R C dc addrs read s =
      { sensorMap := fun r c =>
          if r = s.learnedSensors / C ∧ c = s.learnedSensors % C
          then addrs i else s.sensorMap r c,
        learningMode := false,
        mappingComplete := true,
        learnedSensors := s.learnedSensors + 1,
        baselineTemps := fun j => if j = i then read i else s.baselineTemps j } := by
  unfold checkForHeatSignal
  rw [hi]
  simp [hdup, hge]

theorem c1_firstHot_eval : firstHot 2 c1Read c1State.baselineTemps = some 0 := by
  unfold firstHot
  rw [show List.range 2 = [0, 1] from rfl]
  rw [List.find?_cons_of_pos]
  rw [decide_eq_true_eq]
  norm_num [c1Read, c1State]

/-- C1 counterexample: on a tick where the first above-threshold identity
(sensor 0) is already mapped, sensor 1 is also above threshold and not yet
mapped, yet the tick makes no assignment at all: `learnedSensors` stays 1
and the target position `(0,1)` stays empty, because `checkForHeatSignal`
breaks out of its scan at the duplicate candidate. -/
theorem c1_tick_rejected_counterexample :
    firstHot 2 c1Read c1State.baselineTemps = some 0 ∧
    alreadyLearned 3 7 c1State.sensorMap (c1Addrs 0) = true ∧
    ((3 : ℚ) / 2 < c1Read 1 - c1State.baselineTemps 1) ∧
    alreadyLearned 3 7 c1State.sensorMap (c1Addrs 1) = false ∧
    (checkForHeatSignal 3 7 2 c1Addrs c1Read c1State).learnedSensors = 1 ∧
    isAddressEmpty
      ((checkForHeatSignal 3 7 2 c1Addrs c1Read c1State).sensorMap 0 1) = true := by
  have hdup : alreadyLearned 3 7 c1State.sensorMap (c1Addrs 0) = true := by decide
  have hstep : checkForHeatSignal 3 7 2 c1Addrs c1Read c1State = c1State :=
    step_rejected 3 7 2 c1Addrs c1Read c1State 0 c1_firstHot_eval hdup
  refine ⟨c1_firstHot_eval, hdup, by norm_num [c1Read, c1State], by decide, ?_, ?_⟩
  · rw [hstep]
    rfl
  · rw [hstep]
    decide

/-- C1 (amended): whenever the first identity above threshold on a tick is
already present in the partial mapping, the whole tick is rejected: the
state is left unchanged, so no later above-threshold identity is assigned
on that same tick (already-mapped identities are not skipped over; they
abort the tick). -/
theorem c1_duplicate_first_candidate_blocks_tick
    (R C dc : ℕ) (addrs : ℕ → DeviceAddress) (read : ℕ → ℚ) (s : LearnState)
    (i : ℕ) (hi : firstHot dc read s.baselineTemps = some i)
    (hdup : alreadyLearned R C s.sensorMap (addrs i) = true) :
    checkForHeatSignal R C dc addrs read s = s :=
  step_rejected R C dc addrs read s i hi hdup

/-- Witness for C1's amended theorem at the concrete C1 scenario. -/
theorem c1_duplicate_first_candidate_blocks_tick_witness :
    checkForHeatSignal 3 7 2 c1Addrs c1Read c1State = c1State :=
  c1_duplicate_first_candidate_blocks_tick 3 7 2 c1Addrs c1Read c1State 0
    c1_firstHot_eval (by decide)

theorem mapInv_start (R C : ℕ) (hRC : 0 < R * C) (b0 : ℕ → ℚ) :
    MapInv R C (startLearningState b0) := by
  refine ⟨Nat.zero_le _, fun _ => hRC, ?_, ?_, ?_, ?_⟩
  · intro h
    exact absurd h Bool.false_ne_true
  · intro k hk
    have hk0 : k < 0 := hk
    omega
  · intro k _ _
    show isAddressEmpty emptyAddr = true
    decide
  · intro k l _ hl
    have hl0 : l < 0 := hl
    omega

/-- Effect of the assignment write on the three per-position invariant
components, given that the candidate address matches nothing in the grid. -/
theorem assign_components (R C : ℕ) (hC : 0 < C) (m m2 : ℕ → ℕ → DeviceAddress)
    (lc : ℕ) (A : DeviceAddress) (hlc : lc < R * C)
    (hm2 : ∀ r c, m2 r c = if r = lc / C ∧ c = lc % C then A else m r c)
    (h4 : ∀ k, k < lc → isAddressEmpty (m (k / C) (k % C)) = false)
    (h5 : ∀ k, lc ≤ k → k < R * C → isAddressEmpty (m (k / C) (k % C)) = true)
    (h6 : ∀ k l, k < l → l < lc →
      addressesMatch (m (k / C) (k % C)) (m (l / C) (l % C)) = false)
    (hnom : ∀ k, k < R * C → addressesMatch (m (k / C) (k % C)) A = false)
    (hA : isAddressEmpty A = false) :
    (∀ k, k < lc + 1 → isAddressEmpty (m2 (k / C) (k % C)) = false) ∧
    (∀ k, lc + 1 ≤ k → k < R * C → isAddressEmpty (m2 (k / C) (k % C)) = true) ∧
    (∀ k l, k < l → l < lc + 1 →
      addressesMatch (m2 (k / C) (k % C)) (m2 (l / C) (l % C)) = false) := by
  have hat : ∀ k, m2 (k / C) (k % C) = if k = lc then A else m (k / C) (k % C) := by
    intro k
    rw [hm2]
    by_cases hk : k = lc
    · subst hk
      simp
    · have hne : ¬ (k / C = lc / C ∧ k % C = lc % C) := by
        rintro ⟨ha, hb⟩
        exact hk (divmod_cancel ha hb)
      rw [if_neg hne, if_neg hk]
  refine ⟨?_, ?_, ?_⟩
  · intro k hk
    rw [hat]
    by_cases hkl : k = lc
    · rw [if_pos hkl]
      exact hA
    · rw [if_neg hkl]
      exact h4 k (by omega)
  · intro k hk1 hk2
    rw [hat, if_neg (by omega)]
    exact h5 k (by omega) hk2
  · intro k l hkl hl
    rw [hat, hat, if_neg (by omega)]
    by_cases hle : l = lc
    · rw [if_pos hle]
      exact hnom k (by omega)
    · rw [if_neg hle]
      exact h6 k l hkl (by omega)

/-- Invariant `MapInv` is preserved by every pass of the main loop. -/
theorem mapInv_step (R C dc : ℕ) (hC : 0 < C) (addrs : ℕ → DeviceAddress)
    (read : ℕ → ℚ) (s : LearnState) (h : MapInv R C s) :
    MapInv R C (loopTick R C dc addrs read s) := by
  obtain ⟨h1, h2, h3, h4, h5, h6⟩ := h
  unfold loopTick
  cases hmode : s.learningMode with
  | false =>
    rw [if_neg (by simp)]
    exact ⟨h1, h2, h3, h4, h5, h6⟩
  | true =>
    rw [if_pos rfl]
    have hlc : s.learnedSensors < R * C := h2 hmode
    cases hfh : firstHot dc read s.baselineTemps with
    | none =>
      rw [step_no_signal _ _ _ _ _ _ hfh]
      exact ⟨h1, h2, h3, h4, h5, h6⟩
    | some i =>
      cases hdup : alreadyLearned R C s.sensorMap (addrs i) with
      | true =>
        rw [step_rejected _ _ _ _ _ _ _ hfh hdup]
        exact ⟨h1, h2, h3, h4, h5, h6⟩
      | false =>
        have hnom : ∀ k, k < R * C →
            addressesMatch (s.sensorMap (k / C) (k % C)) (addrs i) = false := by
          intro k hk
          exact alreadyLearned_eq_false hdup _
            ((Nat.div_lt_iff_lt_mul hC).mpr hk) _ (Nat.mod_lt _ hC)
        have hA : isAddressEmpty (addrs i) = false := by
          rw [← addressesMatch_of_empty (h5 s.learnedSensors le_rfl hlc)]
          exact hnom s.learnedSensors hlc
        by_cases hlt : s.learnedSensors + 1 < R * C
        · rw [step_assign_continue _ _ _ _ _ _ _ hfh hdup hlt]
          obtain ⟨g4, g5, g6⟩ := assign_components R C hC s.sensorMap _
            s.learnedSensors (addrs i) hlc (fun r c => rfl) h4 h5 h6 hnom hA
          refine ⟨?_, fun _ => hlt, ?_, g4, g5, g6⟩
          · show s.learnedSensors + 1 ≤ R * C
            omega
          · intro hcomp
            exact absurd (h3 hcomp).2 (by omega)
        · rw [step_assign_finish _ _ _ _ _ _ _ hfh hdup hlt]
          obtain ⟨g4, g5, g6⟩ := assign_components R C hC s.sensorMap _
            s.learnedSensors (addrs i) hlc (fun r c => rfl) h4 h5 h6 hnom hA
          refine ⟨?_, fun hmode2 => absurd hmode2 Bool.false_ne_true,
            fun _ => ⟨rfl, ?_⟩, g4, g5, g6⟩
          · show s.learnedSensors + 1 ≤ R * C
            omega
          · show s.learnedSensors + 1 = R * C
            omega

theorem mapInv_fold (R C dc : ℕ) (hC : 0 < C) (addrs : ℕ → DeviceAddress)
    (reads : List (ℕ → ℚ)) (s : LearnState) (h : MapInv R C s) :
    MapInv R C (reads.foldl (fun s read => loopTick R C dc addrs read s) s) := by
  induction reads generalizing s with
  | nil => exact h
  | cons r rs ih => exact ih _ (mapInv_step R C dc hC addrs r s h)

/-- C2: for every positive R-by-C grid and every sequence of learning
ticks, if the session's `mappingComplete` flag is set at the end (learning
finished), then every one of the R·C grid positions holds a non-empty
address and all the assigned addresses are pairwise distinct. -/
theorem c2_complete_mapping_full_and_distinct
    (R C dc : ℕ) (hR : 0 < R) (hC : 0 < C) (addrs : ℕ → DeviceAddress)
    (b0 : ℕ → ℚ) (reads : List (ℕ → ℚ))
    (hdone : (runLearning R C dc addrs b0 reads).mappingComplete = true) :
    (∀ k, k < R * C →
      isAddressEmpty
        ((runLearning R C dc addrs b0 reads).sensorMap (k / C) (k % C)) = false) ∧
    (∀ k l, k < l → l < R * C →
      addressesMatch
        ((runLearning R C dc addrs b0 reads).sensorMap (k / C) (k % C))
        ((runLearning R C dc addrs b0 reads).sensorMap (l / C) (l % C)) = false) := by
  have hinv : MapInv R C (runLearning R C dc addrs b0 reads) := by
    unfold runLearning
    exact mapInv_fold R C dc hC addrs reads _ (mapInv_start R C (Nat.mul_pos hR hC) b0)
  obtain ⟨_, _, h3, h4, _, h6⟩ := hinv
  have hfull := (h3 hdone).2
  exact ⟨fun k hk => h4 k (by omega), fun k l hkl hl => h6 k l hkl (by omega)⟩

theorem w_firstHot1 : firstHot 2 wr1 (startLearningState wB0).baselineTemps = some 0 := by
  unfold firstHot
  rw [show List.range 2 = [0, 1] from rfl]
  rw [List.find?_cons_of_pos]
  simp only [decide_eq_true_eq]
  norm_num [wr1, wB0, startLearningState]

theorem w_firstHot2 : firstHot 2 wr2 wSt1.baselineTemps = some 1 := by
  unfold firstHot
  rw [show List.range 2 = [0, 1] from rfl]
  rw [List.find?_cons_of_neg, List.find?_cons_of_pos]
  · simp only [decide_eq_true_eq]
    norm_num [wr2, wSt1]
  · simp only [decide_eq_true_eq]
    norm_num [wr2, wSt1]

theorem w_learning_run :
    (runLearning 1 2 2 wAddrs wB0 [wr1, wr2]).mappingComplete = true := by
  show (loopTick 1 2 2 wAddrs wr2
    (loopTick 1 2 2 wAddrs wr1 (startLearningState wB0))).mappingComplete = true
  have e1 : loopTick 1 2 2 wAddrs wr1 (startLearningState wB0) = wSt1 := by
    show checkForHeatSignal 1 2 2 wAddrs wr1 (startLearningState wB0) = wSt1
    rw [step_assign_continue 1 2 2 wAddrs wr1 (startLearningState wB0) 0
      w_firstHot1 (by decide) (by decide)]
    rfl
  rw [e1]
  show (checkForHeatSignal 1 2 2 wAddrs wr2 wSt1).mappingComplete = true
  rw [step_assign_finish 1 2 2 wAddrs wr2 wSt1 1 w_firstHot2 (by decide) (by decide)]

/-- Witness for C2 on a concrete completed 1-by-2 session. -/
theorem c2_complete_mapping_full_and_distinct_witness :
    (∀ k, k < 1 * 2 →
      isAddressEmpty
        ((runLearning 1 2 2 wAddrs wB0 [wr1, wr2]).sensorMap (k / 2) (k % 2)) = false) ∧
    (∀ k l, k < l → l < 1 * 2 →
      addressesMatch
        ((runLearning 1 2 2 wAddrs wB0 [wr1, wr2]).sensorMap (k / 2) (k % 2))
        ((runLearning 1 2 2 wAddrs wB0 [wr1, wr2]).sensorMap (l / 2) (l % 2)) = false) :=
  c2_complete_mapping_full_and_distinct 1 2 2 (by decide) (by decide)
    wAddrs wB0 [wr1, wr2] w_learning_run

/-- C10: every pass of the main loop preserves
`0 ≤ learnedSensors ≤ R*C` and `learningMode → learnedSensors < R*C`;
consequently, whenever a learning tick can make an assignment (learning
mode on), the write target `(learnedSensors / C, learnedSensors % C)` is
inside the grid. -/
theorem c10_learning_bounds_invariant (R C dc : ℕ) (hR : 0 < R) (hC : 0 < C)
    (addrs : ℕ → DeviceAddress) (read : ℕ → ℚ) (s : LearnState)
    (hInv : LearnInv R C s) :
    LearnInv R C (loopTick R C dc addrs read s) ∧
    (s.learningMode = true →
      s.learnedSensors / C < R ∧ s.learnedSensors % C < C) := by
  obtain ⟨h1, h2⟩ := hInv
  constructor
  · unfold loopTick
    cases hmode : s.learningMode with
    | false =>
      rw [if_neg (by simp)]
      exact ⟨h1, h2⟩
    | true =>
      rw [if_pos rfl]
      have hlc : s.learnedSensors < R * C := h2 hmode
      cases hfh : firstHot dc read s.baselineTemps with
      | none =>
        rw [step_no_signal _ _ _ _ _ _ hfh]
        exact ⟨h1, h2⟩
      | some i =>
        cases hdup : alreadyLearned R C s.sensorMap (addrs i) with
        | true =>
          rw [step_rejected _ _ _ _ _ _ _ hfh hdup]
          exact ⟨h1, h2⟩
        | false =>
          by_cases hlt : s.learnedSensors + 1 < R * C
          · rw [step_assign_continue _ _ _ _ _ _ _ hfh hdup hlt]
            refine ⟨?_, fun _ => hlt⟩
            show s.learnedSensors + 1 ≤ R * C
            omega
          · rw [step_assign_finish _ _ _ _ _ _ _ hfh hdup hlt]
            refine ⟨?_, fun hmode2 => absurd hmode2 Bool.false_ne_true⟩
            show s.learnedSensors + 1 ≤ R * C
            omega
  · intro hmode
    have hlc : s.learnedSensors < R * C := h2 hmode
    exact ⟨(Nat.div_lt_iff_lt_mul hC).mpr hlc, Nat.mod_lt _ hC⟩

/-- Witness for C10 at a concrete mid-session state. -/
theorem c10_learning_bounds_invariant_witness :
    LearnInv 3 7 (loopTick 3 7 2 c1Addrs c1Read c1State) ∧
    (c1State.learningMode = true →
      c1State.learnedSensors / 7 < 3 ∧ c1State.learnedSensors % 7 < 7) :=
  c10_learning_bounds_invariant 3 7 2 (by decide) (by decide) c1Addrs c1Read c1State
    ⟨by decide, fun _ => by decide⟩

/-- C3 counterexample: the well-formed directive `{edit: 1, interval:
4294968}` yields a period of 10000 ms, not `max(4294968, 10) * 1000 =
4294968000` ms, because `interval * 1000` overflows the 32-bit
`unsigned long` (4294968000 mod 2^32 = 704, then clamped up to 10000). -/
theorem c3_interval_clamp_counterexample :
    applyRemoteDirective (some 1) (some 4294968) 10000 10000 = (10000, 10000) ∧
    max 4294968 10 * 1000 = 4294968000 ∧
    (10000, 10000) ≠ ((4294968000 : ℕ), (4294968000 : ℕ)) := by
  refine ⟨?_, by norm_num, by decide⟩
  show (if 4294968 * 1000 % 2 ^ 32 < 10000 then (10000 : ℕ)
        else 4294968 * 1000 % 2 ^ 32,
       if 4294968 * 1000 % 2 ^ 32 < 10000 then (10000 : ℕ)
        else 4294968 * 1000 % 2 ^ 32) = (10000, 10000)
  norm_num

/-- C3 (amended): for every well-formed directive `{edit: 1, interval: s}`
with `s * 1000` within the 32-bit `unsigned long` range (`s ≤ 4294967`),
both the sending and the measurement period become `max(s, 10) * 1000` ms;
in particular `s = 3` yields 10000 ms (10 seconds), not 3. For larger `s`
the product wraps modulo `2^32` before the 10-second floor is applied. -/
theorem c3_interval_clamp_amended (s p q : ℕ) (hs : s ≤ 4294967) :
    applyRemoteDirective (some 1) (some s) p q
      = (max s 10 * 1000, max s 10 * 1000) := by
  have hmod : s * 1000 % 2 ^ 32 = s * 1000 := Nat.mod_eq_of_lt (by omega)
  show (if s * 1000 % 2 ^ 32 < 10000 then (10000 : ℕ) else s * 1000 % 2 ^ 32,
        if s * 1000 % 2 ^ 32 < 10000 then (10000 : ℕ) else s * 1000 % 2 ^ 32)
      = (max s 10 * 1000, max s 10 * 1000)
  rw [hmod]
  by_cases h10 : s < 10
  · rw [if_pos (by omega), show max s 10 = 10 by omega]
  · rw [if_neg (by omega), show max s 10 = s by omega]

/-- Witness for C3's amended theorem: directive interval 3 gives a
10000 ms period. -/
theorem c3_interval_clamp_amended_witness :
    applyRemoteDirective (some 1) (some 3) 60000 60000
      = (max 3 10 * 1000, max 3 10 * 1000) :=
  c3_interval_clamp_amended 3 60000 60000 (by norm_num)

/-- C7: a calibration run (with a complete mapping) that sees fewer than
2 valid readings fails with `InsufficientSensors` and leaves the whole
calibration state — in-memory offsets and persisted store alike —
untouched. -/
theorem c7_insufficient_sensors_no_change (R C : ℕ)
    (m : ℕ → ℕ → DeviceAddress) (getTempC : DeviceAddress → ℚ) (cs : CalState)
    (hcnt : calibCount R C (rawTempsOf m getTempC) < 2) :
    (runCalibration R C true m getTempC cs).1 = CalResult.insufficientSensors ∧
    (runCalibration R C true m getTempC cs).2 = cs := by
  unfold runCalibration
  rw [if_neg (by decide), if_pos hcnt]
  exact ⟨rfl, rfl⟩

theorem c7_count_eval : calibCount 1 1 (rawTempsOf m7 g7) = 0 := by
  have hraw : rawTempsOf m7 g7 0 0 = -127 := by
    unfold rawTempsOf
    rw [if_pos (show isAddressEmpty (m7 0 0) = true from by decide)]
  have hv : validTemp (rawTempsOf m7 g7 0 0) = false := by
    rw [hraw]
    unfold validTemp DEVICE_DISCONNECTED_C
    rw [decide_eq_false_iff_not]
    norm_num
  unfold calibCount
  rw [show gridPositions 1 1 = [(0, 0)] from rfl]
  rw [List.filter_cons_of_neg (by simp [hv]), List.filter_nil]
  rfl

/-- Witness for C7 at a concrete grid with no valid readings. -/
theorem c7_insufficient_sensors_no_change_witness :
    (runCalibration 1 1 true m7 g7 csInit).1 = CalResult.insufficientSensors ∧
    (runCalibration 1 1 true m7 g7 csInit).2 = csInit :=
  c7_insufficient_sensors_no_change 1 1 m7 g7 csInit (by rw [c7_count_eval]; omega)

/-- Description of the state produced by a successful calibration run. -/
theorem runCalibration_ok_state (R C : ℕ) (m : ℕ → ℕ → DeviceAddress)
    (getTempC : DeviceAddress → ℚ) (cs : CalState)
    (hok : (runCalibration R C true m getTempC cs).1 = CalResult.ok) :
    runCalibration R C true m getTempC cs =
      (CalResult.ok,
        { offset := fun r c =>
            if r < R ∧ c < C then
              (if validTemp (rawTempsOf m getTempC r c) then
                calibAvg R C (rawTempsOf m getTempC) - rawTempsOf m getTempC r c
              else 0)
            else cs.offset r c,
          store := fun r c =>
            if r < R ∧ c < C ∧ validTemp (rawTempsOf m getTempC r c) = true then
              some (calibAvg R C (rawTempsOf m getTempC) - rawTempsOf m getTempC r c)
            else cs.store r c,
          storeDone := true,
          calibrationLoaded := true }) := by
  have hcnt : ¬ calibCount R C (rawTempsOf m getTempC) < 2 := by
    intro hlt
    have hbad : (runCalibration R C true m getTempC cs).1
        = CalResult.insufficientSensors := by
      unfold runCalibration
      rw [if_neg (by decide), if_pos hlt]
    rw [hbad] at hok
    exact absurd hok (by decide)
  unfold runCalibration
  rw [if_neg (by decide), if_neg hcnt]

/-- C4: after a successful calibration, for every in-grid position that
had a valid reading, the raw calibration-time reading plus the stored
offset reproduces the calibration-time mean exactly. -/
theorem c4_calibration_roundtrip (R C : ℕ) (m : ℕ → ℕ → DeviceAddress)
    (getTempC : DeviceAddress → ℚ) (cs : CalState) (r c : ℕ)
    (hok : (runCalibration R C true m getTempC cs).1 = CalResult.ok)
    (hr : r < R) (hc : c < C)
    (hvalid : validTemp (rawTempsOf m getTempC r c) = true) :
    rawTempsOf m getTempC r c
      + (runCalibration R C true m getTempC cs).2.offset r c
      = calibAvg R C (rawTempsOf m getTempC) := by
  rw [runCalibration_ok_state R C m getTempC cs hok]
  dsimp only
  rw [if_pos ⟨hr, hc⟩, if_pos hvalid]
  ring

theorem c4_raw00 : rawTempsOf m4 g4 0 0 = 20 := by
  unfold rawTempsOf
  rw [if_neg (show ¬ isAddressEmpty (m4 0 0) = true from by decide)]
  rw [show g4 (m4 0 0) = 20 from rfl]
  rw [if_neg (show ¬ (20 : ℚ) ≤ DEVICE_DISCONNECTED_C from by
    norm_num [DEVICE_DISCONNECTED_C])]

theorem c4_raw01 : rawTempsOf m4 g4 0 1 = 30 := by
  unfold rawTempsOf
  rw [if_neg (show ¬ isAddressEmpty (m4 0 1) = true from by decide)]
  rw [show g4 (m4 0 1) = 30 from rfl]
  rw [if_neg (show ¬ (30 : ℚ) ≤ DEVICE_DISCONNECTED_C from by
    norm_num [DEVICE_DISCONNECTED_C])]

theorem c4_v00 : validTemp (rawTempsOf m4 g4 0 0) = true := by
  rw [c4_raw00]
  unfold validTemp DEVICE_DISCONNECTED_C
  rw [decide_eq_true_eq]
  norm_num

theorem c4_v01 : validTemp (rawTempsOf m4 g4 0 1) = true := by
  rw [c4_raw01]
  unfold validTemp DEVICE_DISCONNECTED_C
  rw [decide_eq_true_eq]
  norm_num

theorem c4_count : calibCount 1 2 (rawTempsOf m4 g4) = 2 := by
  unfold calibCount
  rw [show gridPositions 1 2 = [(0, 0), (0, 1)] from rfl]
  rw [List.filter_cons_of_pos (by exact c4_v00), List.filter_cons_of_pos (by exact c4_v01),
    List.filter_nil]
  rfl

theorem c4_hok : (runCalibration 1 2 true m4 g4 csInit).1 = CalResult.ok := by
  unfold runCalibration
  rw [if_neg (by decide), if_neg (by rw [c4_count]; omega)]

/-- Witness for C4 at a concrete two-sensor calibration. -/
theorem c4_calibration_roundtrip_witness :
    rawTempsOf m4 g4 0 0 + (runCalibration 1 2 true m4 g4 csInit).2.offset 0 0
      = calibAvg 1 2 (rawTempsOf m4 g4) :=
  c4_calibration_roundtrip 1 2 m4 g4 csInit 0 0 c4_hok (by omega) (by omega) c4_v00

/-- C5 counterexample: position (0,0) is assigned and its sensor returns
the valid reading -100, but with stored offset -27 the sample becomes
-100 + -27 = -127 — exactly the invalid sentinel — so the stored sample is
not valid, contradicting the claim that every calibrated sample of a
connected sensor is valid. -/
theorem c5_sample_validity_counterexample :
    isAddressEmpty (m5 0 0) = false ∧
    DEVICE_DISCONNECTED_C < g5 (m5 0 0) ∧
    measureTemperatures m5 g5 off5 0 0 = -127 ∧
    validTemp (measureTemperatures m5 g5 off5 0 0) = false := by
  have hmeas : measureTemperatures m5 g5 off5 0 0 = -127 := by
    unfold measureTemperatures
    rw [if_neg (show ¬ isAddressEmpty (m5 0 0) = true from by decide)]
    rw [show g5 (m5 0 0) = -100 from rfl]
    rw [if_neg (show ¬ (-100 : ℚ) ≤ DEVICE_DISCONNECTED_C from by
      norm_num [DEVICE_DISCONNECTED_C])]
    rw [show off5 0 0 = -27 from rfl]
    norm_num
  refine ⟨by decide, by norm_num [g5, DEVICE_DISCONNECTED_C], hmeas, ?_⟩
  rw [hmeas]
  unfold validTemp DEVICE_DISCONNECTED_C
  rw [decide_eq_false_iff_not]
  norm_num

/-- C5 (amended): per position and sampling call: if unassigned the sample
is the -127 sentinel; if the sensor reads at or below the disconnected
sentinel the sample is the -127 sentinel; otherwise the sample equals the
raw reading plus the position's calibration offset, and that sample is
valid if and only if the sum stays above the -127 sentinel (it is not
unconditionally valid). -/
theorem c5_sample_characterization (m : ℕ → ℕ → DeviceAddress)
    (getTempC : DeviceAddress → ℚ) (offset : ℕ → ℕ → ℚ) (r c : ℕ) :
    (isAddressEmpty (m r c) = true →
      measureTemperatures m getTempC offset r c = -127) ∧
    (isAddressEmpty (m r c) = false →
      getTempC (m r c) ≤ DEVICE_DISCONNECTED_C →
      measureTemperatures m getTempC offset r c = -127) ∧
    (isAddressEmpty (m r c) = false →
      DEVICE_DISCONNECTED_C < getTempC (m r c) →
      measureTemperatures m getTempC offset r c
          = getTempC (m r c) + offset r c ∧
      (validTemp (measureTemperatures m getTempC offset r c) = true ↔
        DEVICE_DISCONNECTED_C < getTempC (m r c) + offset r c)) := by
  unfold measureTemperatures
  refine ⟨?_, ?_, ?_⟩
  · intro h
    rw [if_pos h]
  · intro h1 h2
    rw [if_neg (by simp [h1]), if_pos h2]
  · intro h1 h2
    rw [if_neg (by simp [h1]), if_neg (not_le.mpr h2)]
    refine ⟨rfl, ?_⟩
    unfold validTemp
    exact decide_eq_true_iff

/-- Witness for C5's amended theorem in the assigned-and-connected case. -/
theorem c5_sample_characterization_witness :
    measureTemperatures m5 g5w off5w 0 0 = g5w (m5 0 0) + off5w 0 0 ∧
    (validTemp (measureTemperatures m5 g5w off5w 0 0) = true ↔
      DEVICE_DISCONNECTED_C < g5w (m5 0 0) + off5w 0 0) :=
  (c5_sample_characterization m5 g5w off5w 0 0).2.2 (by decide)
    (by norm_num [g5w, DEVICE_DISCONNECTED_C])

/-- C9 (amended): after a successful calibration run, every in-grid
position with no valid calibration-time reading has in-memory offset 0 and
its persisted key is left exactly as it was before the run (so a
subsequent load returns the previously stored value, 0 only when none was
stored); every in-grid position with a valid reading has its offset
persisted; and the `done` flag is persisted. The full table is not
rewritten: stale offsets of previously-valid positions survive. -/
theorem c9_calibration_persistence_amended (R C : ℕ)
    (m : ℕ → ℕ → DeviceAddress) (getTempC : DeviceAddress → ℚ) (cs : CalState)
    (r c : ℕ) (hok : (runCalibration R C true m getTempC cs).1 = CalResult.ok)
    (hr : r < R) (hc : c < C) :
    (validTemp (rawTempsOf m getTempC r c) = false →
      (runCalibration R C true m getTempC cs).2.offset r c = 0 ∧
      (runCalibration R C true m getTempC cs).2.store r c = cs.store r c ∧
      (loadCalibration R C (runCalibration R C true m getTempC cs).2.store
        (runCalibration R C true m getTempC cs).2.storeDone).1 r c
        = (cs.store r c).getD 0) ∧
    (validTemp (rawTempsOf m getTempC r c) = true →
      (runCalibration R C true m getTempC cs).2.store r c
        = some ((runCalibration R C true m getTempC cs).2.offset r c)) ∧
    (runCalibration R C true m getTempC cs).2.storeDone = true := by
  rw [runCalibration_ok_state R C m getTempC cs hok]
  dsimp only
  refine ⟨?_, ?_, rfl⟩
  · intro hinv
    refine ⟨?_, ?_, ?_⟩
    · rw [if_pos ⟨hr, hc⟩, if_neg (by simp [hinv])]
    · rw [if_neg (by simp [hinv])]
    · unfold loadCalibration
      dsimp only
      rw [if_pos ⟨rfl, hr, hc⟩, if_neg (by simp [hinv])]
  · intro hval
    rw [if_pos ⟨hr, hc, hval⟩, if_pos ⟨hr, hc⟩, if_pos hval]

theorem c9_raw00 : rawTempsOf m9 g9 0 0 = -127 := by
  unfold rawTempsOf
  rw [if_neg (show ¬ isAddressEmpty (m9 0 0) = true from by decide)]
  rw [show g9 (m9 0 0) = -127 from rfl]
  rw [if_pos (show (-127 : ℚ) ≤ DEVICE_DISCONNECTED_C from by
    norm_num [DEVICE_DISCONNECTED_C])]

theorem c9_raw01 : rawTempsOf m9 g9 0 1 = 20 := by
  unfold rawTempsOf
  rw [if_neg (show ¬ isAddressEmpty (m9 0 1) = true from by decide)]
  rw [show g9 (m9 0 1) = 20 from rfl]
  rw [if_neg (show ¬ (20 : ℚ) ≤ DEVICE_DISCONNECTED_C from by
    norm_num [DEVICE_DISCONNECTED_C])]

theorem c9_raw02 : rawTempsOf m9 g9 0 2 = 30 := by
  unfold rawTempsOf
  rw [if_neg (show ¬ isAddressEmpty (m9 0 2) = true from by decide)]
  rw [show g9 (m9 0 2) = 30 from rfl]
  rw [if_neg (show ¬ (30 : ℚ) ≤ DEVICE_DISCONNECTED_C from by
    norm_num [DEVICE_DISCONNECTED_C])]

theorem c9_v00 : validTemp (rawTempsOf m9 g9 0 0) = false := by
  rw [c9_raw00]
  unfold validTemp DEVICE_DISCONNECTED_C
  rw [decide_eq_false_iff_not]
  norm_num

theorem c9_v01 : validTemp (rawTempsOf m9 g9 0 1) = true := by
  rw [c9_raw01]
  unfold validTemp DEVICE_DISCONNECTED_C
  rw [decide_eq_true_eq]
  norm_num

theorem c9_v02 : validTemp (rawTempsOf m9 g9 0 2) = true := by
  rw [c9_raw02]
  unfold validTemp DEVICE_DISCONNECTED_C
  rw [decide_eq_true_eq]
  norm_num

theorem c9_count : calibCount 1 3 (rawTempsOf m9 g9) = 2 := by
  unfold calibCount
  rw [show gridPositions 1 3 = [(0, 0), (0, 1), (0, 2)] from rfl]
  rw [List.filter_cons_of_neg (by simp [c9_v00]),
    List.filter_cons_of_pos (by exact c9_v01), List.filter_cons_of_pos (by exact c9_v02),
    List.filter_nil]
  rfl

theorem c9_hok : (runCalibration 1 3 true m9 g9 cs9).1 = CalResult.ok := by
  unfold runCalibration
  rw [if_neg (by decide), if_neg (by rw [c9_count]; omega)]

/-- C9 counterexample: a successful calibration during which position
(0,0) has no valid reading leaves that position's previously persisted
offset 5 in the store, so a subsequent load returns 5 for it — not 0 as
the claim requires. -/
theorem c9_stale_persisted_offset_counterexample :
    (runCalibration 1 3 true m9 g9 cs9).1 = CalResult.ok ∧
    validTemp (rawTempsOf m9 g9 0 0) = false ∧
    (runCalibration 1 3 true m9 g9 cs9).2.offset 0 0 = 0 ∧
    (runCalibration 1 3 true m9 g9 cs9).2.store 0 0 = some 5 ∧
    (loadCalibration 1 3 (runCalibration 1 3 true m9 g9 cs9).2.store
      (runCalibration 1 3 true m9 g9 cs9).2.storeDone).1 0 0 = 5 := by
  refine ⟨c9_hok, c9_v00, ?_, ?_, ?_⟩
  · rw [runCalibration_ok_state 1 3 m9 g9 cs9 c9_hok]
    dsimp only
    rw [if_pos ⟨by omega, by omega⟩, if_neg (by simp [c9_v00])]
  · rw [runCalibration_ok_state 1 3 m9 g9 cs9 c9_hok]
    dsimp only
    rw [if_neg (by simp [c9_v00])]
    rfl
  · rw [runCalibration_ok_state 1 3 m9 g9 cs9 c9_hok]
    unfold loadCalibration
    dsimp only
    rw [if_pos ⟨rfl, by omega, by omega⟩, if_neg (by simp [c9_v00])]
    rfl

/-- Witness for C9's amended theorem at the concrete C9 scenario. -/
theorem c9_calibration_persistence_amended_witness :
    (validTemp (rawTempsOf m9 g9 0 0) = false →
      (runCalibration 1 3 true m9 g9 cs9).2.offset 0 0 = 0 ∧
      (runCalibration 1 3 true m9 g9 cs9).2.store 0 0 = cs9.store 0 0 ∧
      (loadCalibration 1 3 (runCalibration 1 3 true m9 g9 cs9).2.store
        (runCalibration 1 3 true m9 g9 cs9).2.storeDone).1 0 0
        = (cs9.store 0 0).getD 0) ∧
    (validTemp (rawTempsOf m9 g9 0 0) = true →
      (runCalibration 1 3 true m9 g9 cs9).2.store 0 0
        = some ((runCalibration 1 3 true m9 g9 cs9).2.offset 0 0)) ∧
    (runCalibration 1 3 true m9 g9 cs9).2.storeDone = true :=
  c9_calibration_persistence_amended 1 3 m9 g9 cs9 0 0 c9_hok
    (by omega) (by omega)

/-- C8: on every learning tick at most one map slot is written — only the
row-major slot `(learnedSensors / C, learnedSensors % C)` can change — and
whenever the first above-threshold identity is not a duplicate, it is
bound to exactly that slot, `learnedSensors` grows by exactly one, and
that identity's baseline is reset to its current reading while every
other baseline is unchanged. -/
theorem c8_single_assignment_per_tick (R C dc : ℕ) (addrs : ℕ → DeviceAddress)
    (read : ℕ → ℚ) (s : LearnState) :
    (∀ r c, ¬ (r = s.learnedSensors / C ∧ c = s.learnedSensors % C) →
      (checkForHeatSignal R C dc addrs read s).sensorMap r c = s.sensorMap r c) ∧
    (∀ i, firstHot dc read s.baselineTemps = some i →
      alreadyLearned R C s.sensorMap (addrs i) = false →
      (checkForHeatSignal R C dc addrs read s).learnedSensors
          = s.learnedSensors + 1 ∧
      (checkForHeatSignal R C dc addrs read s).sensorMap
          (s.learnedSensors / C) (s.learnedSensors % C) = addrs i ∧
      (checkForHeatSignal R C dc addrs read s).baselineTemps i = read i ∧
      (∀ j, j ≠ i →
        (checkForHeatSignal R C dc addrs read s).baselineTemps j
          = s.baselineTemps j)) := by
  constructor
  · intro r c hne
    cases hfh : firstHot dc read s.baselineTemps with
    | none => rw [step_no_signal _ _ _ _ _ _ hfh]
    | some i =>
      cases hdup : alreadyLearned R C s.sensorMap (addrs i) with
      | true => rw [step_rejected _ _ _ _ _ _ _ hfh hdup]
      | false =>
        by_cases hlt : s.learnedSensors + 1 < R * C
        · rw [step_assign_continue _ _ _ _ _ _ _ hfh hdup hlt]
          exact if_neg hne
        · rw [step_assign_finish _ _ _ _ _ _ _ hfh hdup hlt]
          exact if_neg hne
  · intro i hfh hdup
    by_cases hlt : s.learnedSensors + 1 < R * C
    · rw [step_assign_continue _ _ _ _ _ _ _ hfh hdup hlt]
      exact ⟨rfl, if_pos ⟨rfl, rfl⟩, if_pos rfl, fun j hj => if_neg hj⟩
    · rw [step_assign_finish _ _ _ _ _ _ _ hfh hdup hlt]
      exact ⟨rfl, if_pos ⟨rfl, rfl⟩, if_pos rfl, fun j hj => if_neg hj⟩

/-- Witness for C8 at the first tick of the concrete C2 session. -/
theorem c8_single_assignment_per_tick_witness :
    (checkForHeatSignal 1 2 2 wAddrs wr1 (startLearningState wB0)).learnedSensors
        = (startLearningState wB0).learnedSensors + 1 ∧
    (checkForHeatSignal 1 2 2 wAddrs wr1 (startLearningState wB0)).sensorMap
        ((startLearningState wB0).learnedSensors / 2)
        ((startLearningState wB0).learnedSensors % 2) = wAddrs 0 ∧
    (checkForHeatSignal 1 2 2 wAddrs wr1 (startLearningState wB0)).baselineTemps 0
        = wr1 0 ∧
    (∀ j, j ≠ 0 →
      (checkForHeatSignal 1 2 2 wAddrs wr1 (startLearningState wB0)).baselineTemps j
        = (startLearningState wB0).baselineTemps j) :=
  (c8_single_assignment_per_tick 1 2 2 wAddrs wr1 (startLearningState wB0)).2 0
    w_firstHot1 (by decide)

theorem statsStep_valid {acc : ℚ × ℚ × ℚ × ℕ} {t : ℚ} (h : validTemp t = true) :
    statsStep acc t = (min acc.1 t, max acc.2.1 t, acc.2.2.1 + t, acc.2.2.2 + 1) := by
  unfold statsStep
  rw [if_pos h]
  have hmin : (if t < acc.1 then t else acc.1) = min acc.1 t := by
    rcases lt_or_le t acc.1 with h1 | h1
    · rw [if_pos h1, min_eq_right h1.le]
    · rw [if_neg (not_lt.mpr h1), min_eq_left h1]
  have hmax : (if acc.2.1 < t then t else acc.2.1) = max acc.2.1 t := by
    rcases lt_or_le acc.2.1 t with h1 | h1
    · rw [if_pos h1, max_eq_right h1.le]
    · rw [if_neg (not_lt.mpr h1), max_eq_left h1]
  rw [hmin, hmax]

theorem statsStep_invalid {acc : ℚ × ℚ × ℚ × ℕ} {t : ℚ}
    (h : validTemp t = false) : statsStep acc t = acc := by
  unfold statsStep
  rw [if_neg (by simp [h])]

/-- The statistics loop computes, over the valid entries: the fold of
`min` from the seed, the fold of `max` from the seed, the running sum and
the running count. -/
theorem statsFold_spec (ts : List ℚ) (a b c : ℚ) (n : ℕ) :
    ts.foldl statsStep (a, b, c, n)
      = ((ts.filter validTemp).foldl min a,
         (ts.filter validTemp).foldl max b,
         c + (ts.filter validTemp).sum,
         n + (ts.filter validTemp).length) := by
  induction ts generalizing a b c n with
  | nil => simp
  | cons t ts ih =>
    cases hv : validTemp t with
    | false =>
      rw [List.foldl_cons, List.filter_cons_of_neg (by simp [hv]),
        statsStep_invalid hv]
      exact ih a b c n
    | true =>
      rw [List.foldl_cons, List.filter_cons_of_pos (by exact hv),
        statsStep_valid hv, ih]
      simp only [List.foldl_cons, List.sum_cons, List.length_cons, Prod.mk.injEq]
      exact ⟨trivial, trivial, by ring, by omega⟩

theorem foldl_min_le_init (vs : List ℚ) (a : ℚ) : vs.foldl min a ≤ a := by
  induction vs generalizing a with
  | nil => exact le_rfl
  | cons t ts ih => exact le_trans (ih (min a t)) (min_le_left a t)

theorem foldl_min_le_mem (vs : List ℚ) (a : ℚ) : ∀ t ∈ vs, vs.foldl min a ≤ t := by
  induction vs generalizing a with
  | nil =>
    intro t ht
    exact absurd ht (List.not_mem_nil t)
  | cons u ts ih =>
    intro t ht
    rw [List.foldl_cons]
    rcases List.mem_cons.mp ht with rfl | hmem
    · exact le_trans (foldl_min_le_init ts (min a t)) (min_le_right a t)
    · exact ih (min a u) t hmem

theorem foldl_min_mem (vs : List ℚ) (a : ℚ) :
    vs.foldl min a = a ∨ vs.foldl min a ∈ vs := by
  induction vs generalizing a with
  | nil => exact Or.inl rfl
  | cons t ts ih =>
    rw [List.foldl_cons]
    rcases ih (min a t) with h | h
    · rcases le_or_lt a t with hat | hat
      · exact Or.inl (by rw [h, min_eq_left hat])
      · exact Or.inr (by rw [h, min_eq_right hat.le]; exact List.mem_cons_self t ts)
    · exact Or.inr (List.mem_cons_of_mem t h)

theorem foldl_max_init_le (vs : List ℚ) (b : ℚ) : b ≤ vs.foldl max b := by
  induction vs generalizing b with
  | nil => exact le_rfl
  | cons t ts ih => exact le_trans (le_max_left b t) (ih (max b t))

theorem foldl_max_mem_le (vs : List ℚ) (b : ℚ) : ∀ t ∈ vs, t ≤ vs.foldl max b := by
  induction vs generalizing b with
  | nil =>
    intro t ht
    exact absurd ht (List.not_mem_nil t)
  | cons u ts ih =>
    intro t ht
    rw [List.foldl_cons]
    rcases List.mem_cons.mp ht with rfl | hmem
    · exact le_trans (le_max_right b t) (foldl_max_init_le ts (max b t))
    · exact ih (max b u) t hmem

theorem foldl_max_mem (vs : List ℚ) (b : ℚ) :
    vs.foldl max b = b ∨ vs.foldl max b ∈ vs := by
  induction vs generalizing b with
  | nil => exact Or.inl rfl
  | cons t ts ih =>
    rw [List.foldl_cons]
    rcases ih (max b t) with h | h
    · rcases le_or_lt t b with hat | hat
      · exact Or.inl (by rw [h, max_eq_left hat])
      · exact Or.inr (by rw [h, max_eq_right hat.le]; exact List.mem_cons_self t ts)
    · exact Or.inr (List.mem_cons_of_mem t h)

/-- Closed form of `computeStatistics` in terms of the valid samples. -/
theorem computeStatistics_closed (R C : ℕ) (grid : ℕ → ℕ → ℚ) :
    computeStatistics R C grid
      = if 0 < ((gridTemps R C grid).filter validTemp).length then
          some ⟨((gridTemps R C grid).filter validTemp).foldl min 999,
                ((gridTemps R C grid).filter validTemp).foldl max (-999),
                ((gridTemps R C grid).filter validTemp).sum
                  / ((((gridTemps R C grid).filter validTemp).length : ℕ) : ℚ),
                ((gridTemps R C grid).filter validTemp).length⟩
        else none := by
  unfold computeStatistics
  rw [statsFold_spec]
  dsimp only
  norm_num

/-- C6 (amended): the statistics block is present iff at least one grid
sample is valid; `valid_readings` and `avg_temp` are the count and mean of
exactly the valid samples; `max_temp` is the maximum of the valid samples;
`min_temp` is a lower bound of the valid samples and is their minimum
whenever some valid sample is at most 999 (the loop's seed) — a grid whose
valid samples all exceed 999 reports `min_temp = 999` instead of the true
minimum. -/
theorem c6_statistics_amended (R C : ℕ) (grid : ℕ → ℕ → ℚ) :
    (computeStatistics R C grid = none ↔
      (gridTemps R C grid).filter validTemp = []) ∧
    (∀ st, computeStatistics R C grid = some st →
      st.valid_readings = ((gridTemps R C grid).filter validTemp).length ∧
      st.avg_temp = ((gridTemps R C grid).filter validTemp).sum
          / ((((gridTemps R C grid).filter validTemp).length : ℕ) : ℚ) ∧
      (∀ t ∈ (gridTemps R C grid).filter validTemp, t ≤ st.max_temp) ∧
      st.max_temp ∈ (gridTemps R C grid).filter validTemp ∧
      (∀ t ∈ (gridTemps R C grid).filter validTemp, st.min_temp ≤ t) ∧
      ((∃ t ∈ (gridTemps R C grid).filter validTemp, t ≤ 999) →
        st.min_temp ∈ (gridTemps R C grid).filter validTemp)) := by
  rw [computeStatistics_closed]
  constructor
  · by_cases h : (gridTemps R C grid).filter validTemp = []
    · simp [h]
    · simp [h, List.length_pos.mpr h]
  · intro st hst
    by_cases h : (gridTemps R C grid).filter validTemp = []
    · rw [if_neg (by simp [h])] at hst
      exact absurd hst (by simp)
    · have hlen : 0 < ((gridTemps R C grid).filter validTemp).length :=
        List.length_pos.mpr h
      rw [if_pos hlen, Option.some.injEq] at hst
      subst hst
      refine ⟨rfl, rfl, ?_, ?_, ?_, ?_⟩
      · intro t ht
        exact foldl_max_mem_le _ (-999) t ht
      · rcases foldl_max_mem ((gridTemps R C grid).filter validTemp) (-999) with
          hm | hm
        · obtain ⟨t, ht⟩ := List.exists_mem_of_ne_nil _ h
          have hvt : validTemp t = true := (List.mem_filter.mp ht).2
          have htv : DEVICE_DISCONNECTED_C < t := by
            have := of_decide_eq_true hvt
            exact this
          have hle : t ≤ ((gridTemps R C grid).filter validTemp).foldl max (-999) :=
            foldl_max_mem_le _ (-999) t ht
          rw [hm] at hle
          have : (-999 : ℚ) < t := lt_of_lt_of_le (by norm_num [DEVICE_DISCONNECTED_C]) htv.le
          exact absurd hle (not_le.mpr this)
        · exact hm
      · intro t ht
        exact foldl_min_le_mem _ 999 t ht
      · intro hex
        rcases foldl_min_mem ((gridTemps R C grid).filter validTemp) 999 with
          hm | hm
        · obtain ⟨t, ht, ht999⟩ := hex
          have hle : ((gridTemps R C grid).filter validTemp).foldl min 999 ≤ t :=
            foldl_min_le_mem _ 999 t ht
          rw [hm] at hle
          have ht999eq : t = 999 := le_antisymm ht999 hle
          rw [hm, ← ht999eq]
          exact ht
        · exact hm

theorem c6_valid_1000 : validTemp (1000 : ℚ) = true := by
  unfold validTemp DEVICE_DISCONNECTED_C
  rw [decide_eq_true_eq]
  norm_num

theorem c6_eval : computeStatistics 1 1 grid6 = some ⟨999, 1000, 1000, 1⟩ := by
  unfold computeStatistics
  rw [show gridTemps 1 1 grid6 = [1000] from rfl]
  rw [show List.foldl statsStep ((999 : ℚ), (-999 : ℚ), (0 : ℚ), (0 : ℕ)) [(1000 : ℚ)]
      = statsStep (999, -999, 0, 0) 1000 from rfl]
  rw [statsStep_valid c6_valid_1000]
  dsimp only
  rw [if_pos (by norm_num)]
  rw [min_eq_left (by norm_num : (999 : ℚ) ≤ 1000)]
  rw [max_eq_right (by norm_num : (-999 : ℚ) ≤ 1000)]
  norm_num

/-- C6 counterexample: on a grid whose only sample is the valid reading
1000, the emitted statistics report `min_temp = 999` — the loop's seed —
although the minimum over the valid samples is 1000; so `min_temp` is not
computed over the valid samples. (Presence of the block and the other
fields are as claimed.) -/
theorem c6_statistics_min_counterexample :
    computeStatistics 1 1 grid6 = some ⟨999, 1000, 1000, 1⟩ ∧
    validTemp (grid6 0 0) = true ∧
    grid6 0 0 = 1000 ∧
    (999 : ℚ) < 1000 := by
  refine ⟨c6_eval, ?_, rfl, by norm_num⟩
  exact c6_valid_1000

theorem c6w_valid : validTemp (20 : ℚ) = true := by
  unfold validTemp DEVICE_DISCONNECTED_C
  rw [decide_eq_true_eq]
  norm_num

theorem c6w_eval : computeStatistics 1 1 grid6w = some ⟨20, 20, 20, 1⟩ := by
  unfold computeStatistics
  rw [show gridTemps 1 1 grid6w = [20] from rfl]
  rw [show List.foldl statsStep ((999 : ℚ), (-999 : ℚ), (0 : ℚ), (0 : ℕ)) [(20 : ℚ)]
      = statsStep (999, -999, 0, 0) 20 from rfl]
  rw [statsStep_valid c6w_valid]
  dsimp only
  rw [if_pos (by norm_num)]
  rw [min_eq_right (by norm_num : (20 : ℚ) ≤ 999)]
  rw [max_eq_right (by norm_num : (-999 : ℚ) ≤ 20)]
  norm_num

/-- Witness for C6's amended theorem at a concrete one-sample grid. -/
theorem c6_statistics_amended_witness :
    (⟨20, 20, 20, 1⟩ : Stats).valid_readings
        = ((gridTemps 1 1 grid6w).filter validTemp).length ∧
    (⟨20, 20, 20, 1⟩ : Stats).avg_temp = ((gridTemps 1 1 grid6w).filter validTemp).sum
        / ((((gridTemps 1 1 grid6w).filter validTemp).length : ℕ) : ℚ) ∧
    (∀ t ∈ (gridTemps 1 1 grid6w).filter validTemp,
      t ≤ (⟨20, 20, 20, 1⟩ : Stats).max_temp) ∧
    (⟨20, 20, 20, 1⟩ : Stats).max_temp ∈ (gridTemps 1 1 grid6w).filter validTemp ∧
    (∀ t ∈ (gridTemps 1 1 grid6w).filter validTemp,
      (⟨20, 20, 20, 1⟩ : Stats).min_temp ≤ t) ∧
    ((∃ t ∈ (gridTemps 1 1 grid6w).filter validTemp, t ≤ 999) →
      (⟨20, 20, 20, 1⟩ : Stats).min_temp ∈ (gridTemps 1 1 grid6w).filter validTemp) :=
  (c6_statistics_amended 1 1 grid6w).2 ⟨20, 20, 20, 1⟩ c6w_eval

end BEEmapiX
